import Mathlib

/-!
Verification of the `number_counter_by_hosu` widget (`src/Counter.ts`,
`src/app.ts`, `src/interfaces.ts`).

The `Counter` class keeps an integer count, bounded by `minValue`/`maxValue`,
stepped by `step`, persisted under the fixed localStorage key
`counter_value`, mirrored into a display element, and observed through an
ordered list of change listeners.  We embed the class as a pure state record
together with, for each mutating method, the list of listener invocations the
method performs (each invocation is the pair of the callback handle and the
value it receives).  DOM-only effects with no observable state (the CSS
animation restart in `animateCounter`, button event wiring in `init`) are not
part of the state.

JavaScript numeric strings: `this.count.toString()` produces the decimal
representation of the integer, and `parseInt(s, 10)` skips leading
whitespace, accepts an optional sign, and parses the longest prefix of
decimal digits, giving NaN when no digit is found.  Both are modelled below
over `List Char`/`String`; NaN is modelled as `Option.none`.
-/

namespace NumberCounter

/-- The decimal digit character for `d` (meaningful for `d < 10`). -/
def digitToChar (d : Nat) : Char := Char.ofNat (48 + d)

/-- The numeric value of a decimal digit character. -/
def charToDigit (c : Char) : Nat := c.toNat - 48

/-- Fuel-driven worker for the little-endian decimal digits of `n`; the
fuel only forces structural recursion and is irrelevant once at least `n`. -/
def natDigitsRevAux : Nat → Nat → List Char
  | 0, _ => []
  | _ + 1, 0 => []
  | fuel + 1, n + 1 => digitToChar ((n + 1) % 10) :: natDigitsRevAux fuel ((n + 1) / 10)

/-- Little-endian decimal digit characters of `n` (empty for `0`). -/
def natDigitsRev (n : Nat) : List Char := natDigitsRevAux n n

theorem natDigitsRevAux_congr :
    ∀ n f1 f2, n ≤ f1 → n ≤ f2 → natDigitsRevAux f1 n = natDigitsRevAux f2 n := by
  intro n
  induction n using Nat.strong_induction_on with
  | _ n ih =>
    intro f1 f2 h1 h2
    match n, f1, f2 with
    | 0, 0, 0 => rfl
    | 0, 0, _ + 1 => rfl
    | 0, _ + 1, 0 => rfl
    | 0, _ + 1, _ + 1 => rfl
    | m + 1, g1 + 1, g2 + 1 =>
      rw [natDigitsRevAux, natDigitsRevAux]
      have hdiv : (m + 1) / 10 < m + 1 := Nat.div_lt_self (Nat.succ_pos m) (by omega)
      rw [ih ((m + 1) / 10) hdiv g1 g2 (by omega) (by omega)]

theorem natDigitsRev_zero : natDigitsRev 0 = [] := rfl

theorem natDigitsRev_succ (n : Nat) :
    natDigitsRev (n + 1) = digitToChar ((n + 1) % 10) :: natDigitsRev ((n + 1) / 10) := by
  unfold natDigitsRev
  rw [natDigitsRevAux]
  have hdiv : (n + 1) / 10 < n + 1 := Nat.div_lt_self (Nat.succ_pos n) (by omega)
  rw [natDigitsRevAux_congr ((n + 1) / 10) n ((n + 1) / 10) (by omega) le_rfl]

/-- Decimal digit characters of a natural number, as JavaScript
`Number.prototype.toString` renders it. -/
def natToChars (n : Nat) : List Char :=
  if n = 0 then ['0'] else (natDigitsRev n).reverse

/-- Decimal character rendering of an integer: a leading `'-'` for negative
values, then the digits. -/
def intToChars (i : Int) : List Char :=
  if i < 0 then '-' :: natToChars i.natAbs else natToChars i.natAbs

/-- Models `i.toString()` on an integer-valued JavaScript number: the decimal
string of `i`. -/
def intToString (i : Int) : String := (intToChars i).asString

/-- The whitespace characters `parseInt` skips (the common ones suffice for
this development). -/
def isJsWhitespace (c : Char) : Bool :=
  decide (c = ' ' ∨ c = '\t' ∨ c = '\n' ∨ c = '\r')

/-- Accumulate the value of a list of decimal digit characters; `none` when
the list is empty (no digit found, i.e. NaN). -/
def parseDigitList (ds : List Char) : Option Nat :=
  if ds.isEmpty then none
  else some (ds.foldl (fun a c => a * 10 + charToDigit c) 0)

/-- Sign-and-digits part of `parseInt(·, 10)`, after whitespace is skipped:
optional sign, then the longest prefix of decimal digits; `none` models the
NaN result (no digit found). -/
def jsParseIntChars : List Char → Option Int
  | [] => none
  | c :: rest =>
    if c = '-' then
      (parseDigitList (rest.takeWhile Char.isDigit)).map (fun n => -(Int.ofNat n))
    else if c = '+' then
      (parseDigitList (rest.takeWhile Char.isDigit)).map Int.ofNat
    else
      (parseDigitList ((c :: rest).takeWhile Char.isDigit)).map Int.ofNat

/-- Models `parseInt(s, 10)`: skip leading whitespace, optional sign, longest
prefix of decimal digits; `none` models the NaN result. -/
def jsParseInt (s : String) : Option Int :=
  jsParseIntChars (s.data.dropWhile isJsWhitespace)

theorem charToDigit_digitToChar {d : Nat} (h : d < 10) :
    charToDigit (digitToChar d) = d := by
  interval_cases d <;> decide

theorem isDigit_digitToChar {d : Nat} (h : d < 10) :
    (digitToChar d).isDigit = true := by
  interval_cases d <;> decide

theorem mem_natDigitsRev_isDigit :
    ∀ n c, c ∈ natDigitsRev n → c.isDigit = true := by
  intro n
  induction n using Nat.strong_induction_on with
  | _ n ih =>
    match n with
    | 0 => intro c hc; simp [natDigitsRev_zero] at hc
    | m + 1 =>
      intro c hc
      rw [natDigitsRev_succ] at hc
      rcases List.mem_cons.mp hc with h | h
      · subst h; exact isDigit_digitToChar (Nat.mod_lt _ (by omega))
      · exact ih ((m + 1) / 10) (Nat.div_lt_self (Nat.succ_pos m) (by omega)) c h

theorem foldr_natDigitsRev (n a : Nat) :
    List.foldr (fun c acc => acc * 10 + charToDigit c) a (natDigitsRev n)
      = a * 10 ^ (natDigitsRev n).length + n := by
  induction n using Nat.strong_induction_on with
  | _ n ih =>
    match n with
    | 0 => simp [natDigitsRev_zero]
    | m + 1 =>
      rw [natDigitsRev_succ]
      simp only [List.foldr_cons, List.length_cons]
      rw [ih ((m + 1) / 10) (Nat.div_lt_self (Nat.succ_pos m) (by omega)),
        charToDigit_digitToChar (Nat.mod_lt _ (by omega))]
      have h10 : 10 ^ ((natDigitsRev ((m + 1) / 10)).length + 1)
          = 10 ^ (natDigitsRev ((m + 1) / 10)).length * 10 := pow_succ 10 _
      rw [h10]
      have := Nat.div_add_mod (m + 1) 10
      ring_nf
      omega

theorem foldl_reverse_natDigitsRev (n : Nat) :
    List.foldl (fun a c => a * 10 + charToDigit c) 0 (natDigitsRev n).reverse = n := by
  rw [List.foldl_reverse]
  have := foldr_natDigitsRev n 0
  simpa using this

theorem natDigitsRev_ne_nil {n : Nat} (h : n ≠ 0) : natDigitsRev n ≠ [] := by
  match n with
  | 0 => exact absurd rfl h
  | m + 1 => rw [natDigitsRev_succ]; exact List.cons_ne_nil _ _

theorem mem_natToChars_isDigit (n : Nat) (c : Char) (hc : c ∈ natToChars n) :
    c.isDigit = true := by
  unfold natToChars at hc
  split at hc
  · simp at hc; subst hc; decide
  · exact mem_natDigitsRev_isDigit n c (List.mem_reverse.mp hc)

theorem takeWhile_isDigit_natToChars (n : Nat) :
    (natToChars n).takeWhile Char.isDigit = natToChars n :=
  List.takeWhile_eq_self_iff.mpr (mem_natToChars_isDigit n)

theorem dropWhile_isJsWhitespace_natToChars (n : Nat) :
    (natToChars n).dropWhile isJsWhitespace = natToChars n := by
  match h : natToChars n with
  | [] => simp
  | c :: t =>
    have hd : c.isDigit = true := mem_natToChars_isDigit n c (h ▸ List.mem_cons_self c t)
    have hw : isJsWhitespace c = false := by
      simp only [isJsWhitespace, decide_eq_false_iff_not]
      rintro (rfl | rfl | rfl | rfl) <;> simp at hd
    simp [List.dropWhile_cons, hw]

theorem parseDigitList_natToChars (n : Nat) :
    parseDigitList (natToChars n) = some n := by
  unfold parseDigitList natToChars
  by_cases h : n = 0
  · subst h; decide
  · rw [if_neg h, if_neg (by simp [natDigitsRev_ne_nil h])]
    exact congrArg some (foldl_reverse_natDigitsRev n)

theorem natToChars_head_not_sign (n : Nat) :
    ∀ c t, natToChars n = c :: t → c ≠ '-' ∧ c ≠ '+' := by
  intro c t h
  have hd : c.isDigit = true := mem_natToChars_isDigit n c (h ▸ List.mem_cons_self c t)
  constructor <;> rintro rfl <;> simp at hd

theorem jsParseIntChars_natToChars (n : Nat) :
    jsParseIntChars (natToChars n) = some (Int.ofNat n) := by
  match h : natToChars n with
  | [] =>
    exact absurd h (by unfold natToChars; split <;> simp [natDigitsRev_ne_nil, *])
  | c :: t =>
    obtain ⟨h1, h2⟩ := natToChars_head_not_sign n c t h
    rw [jsParseIntChars, if_neg h1, if_neg h2, ← h, takeWhile_isDigit_natToChars,
      parseDigitList_natToChars]
    rfl

/-- The decimal printer and `parseInt(·, 10)` round-trip on every integer. -/
theorem jsParseInt_intToString (i : Int) : jsParseInt (intToString i) = some i := by
  unfold jsParseInt intToString intToChars
  by_cases hneg : i < 0
  · rw [if_pos hneg]
    have hdata : ('-' :: natToChars i.natAbs).asString.data
        = '-' :: natToChars i.natAbs := rfl
    rw [hdata]
    have hw : isJsWhitespace '-' = false := by decide
    rw [List.dropWhile_cons, hw]
    simp only [Bool.false_eq_true, if_false]
    rw [jsParseIntChars, if_pos rfl, takeWhile_isDigit_natToChars,
      parseDigitList_natToChars, Option.map_some']
    congr 1
    simp only [Int.ofNat_eq_coe]
    omega
  · rw [if_neg hneg]
    have hdata : (natToChars i.natAbs).asString.data = natToChars i.natAbs := rfl
    rw [hdata, dropWhile_isJsWhitespace_natToChars, jsParseIntChars_natToChars]
    congr 1
    simp only [Int.ofNat_eq_coe]
    omega

/-- State of a `Counter` instance together with its collaborators that hold
observable state: `display` is the text content of the bound display element
(`this.element.textContent`), and `storage` is the string stored under the
fixed localStorage key `counter_value` (`none` when the key is absent).
Listeners are opaque callback handles of type `α`; `listeners` keeps them in
registration order, as the `listeners` array of the class does. -/
structure Counter (α : Type) where
  count : Int
  minValue : Int
  maxValue : Int
  step : Int
  listeners : List α
  display : String
  storage : Option String
deriving DecidableEq, Repr

/-- The `CounterOptions` interface of `src/interfaces.ts`: every field is
optional. -/
structure CounterOptions where
  initialValue : Option Int
  minValue : Option Int
  maxValue : Option Int
  step : Option Int
deriving DecidableEq, Repr

/-- `Number.MIN_SAFE_INTEGER`. -/
def MIN_SAFE_INTEGER : Int := -(2 ^ 53 - 1)

/-- `Number.MAX_SAFE_INTEGER`. -/
def MAX_SAFE_INTEGER : Int := 2 ^ 53 - 1

/-- `updateDisplay()`: writes the decimal string of the current count into
the display element. -/
def updateDisplay {α : Type} (c : Counter α) : Counter α :=
  { c with display := intToString c.count }

/-- `saveCountToStorage()`: writes the decimal string of the current count
under the storage key. -/
def saveCountToStorage {α : Type} (c : Counter α) : Counter α :=
  { c with storage := some (intToString c.count) }

/-- `notifyListeners()`: the invocations it performs — each registered
listener, in array order, called with the current count. -/
def notifyListeners {α : Type} (c : Counter α) : List (α × Int) :=
  c.listeners.map (fun listener => (listener, c.count))

/-- The `Counter` constructor: option defaulting with `??`, then the stored
string (if any) is parsed with `parseInt(·, 10)`, else `initialValue ?? 0`
is used; finally `updateDisplay()` runs.  The result is `none` exactly when
the stored string parses to NaN, the one run not representable with an
integer count; no claim concerns that run.  The constructor never writes
storage, so the `storage` field keeps the pre-existing content. -/
def mkCounter {α : Type} (options : CounterOptions) (stored : Option String) :
    Option (Counter α) :=
  let minValue := options.minValue.getD MIN_SAFE_INTEGER
  let maxValue := options.maxValue.getD MAX_SAFE_INTEGER
  let step := options.step.getD 1
  let savedCount : Option Int :=
    match stored with
    | some s => jsParseInt s
    | none => some (options.initialValue.getD 0)
  savedCount.map (fun count =>
    updateDisplay
      { count := count, minValue := minValue, maxValue := maxValue, step := step,
        listeners := [], display := "", storage := stored })

/-- `addChangeListener(callback)`: pushes the callback at the end of the
listeners array.  The second component is the list of listener invocations
the call performs — none. -/
def addChangeListener {α : Type} (c : Counter α) (callback : α) :
    Counter α × List (α × Int) :=
  ({ c with listeners := c.listeners ++ [callback] }, [])

/-- `increment()`: `newCount = count + step`; if `newCount <= maxValue`,
set the count, update the display, animate, save to storage and notify the
listeners; otherwise do nothing.  Returns the new state and the listener
invocations performed. -/
def increment {α : Type} (c : Counter α) : Counter α × List (α × Int) :=
  let newCount := c.count + c.step
  if newCount ≤ c.maxValue then
    let c2 := saveCountToStorage (updateDisplay { c with count := newCount })
    (c2, notifyListeners c2)
  else
    (c, [])

/-- `decrement()`: `newCount = count - step`; if `newCount >= minValue`,
set the count, update the display, animate, save to storage and notify the
listeners; otherwise do nothing. -/
def decrement {α : Type} (c : Counter α) : Counter α × List (α × Int) :=
  let newCount := c.count - c.step
  if newCount ≥ c.minValue then
    let c2 := saveCountToStorage (updateDisplay { c with count := newCount })
    (c2, notifyListeners c2)
  else
    (c, [])

/-- `reset()`: unconditionally sets the count to `0`, updates the display,
animates, saves to storage and notifies the listeners. -/
def reset {α : Type} (c : Counter α) : Counter α × List (α × Int) :=
  let c2 := saveCountToStorage (updateDisplay { c with count := 0 })
  (c2, notifyListeners c2)

/-- `n` successive `increment()` calls, threading the state and
concatenating the listener invocations in order. -/
def incrementN {α : Type} : Nat → Counter α → Counter α × List (α × Int)
  | 0, c => (c, [])
  | n + 1, c =>
    let r1 := increment c
    let r2 := incrementN n r1.1
    (r2.1, r1.2 ++ r2.2)

/-- The counter configuration built in `src/app.ts`. -/
def appCounterOptions : CounterOptions :=
  { initialValue := some 0, minValue := some (-100), maxValue := some 100,
    step := some 1 }

/-- `src/app.ts` initialization: each of the four `Bool` arguments tells
whether `document.getElementById` found the corresponding element.  If any
is missing the script logs and throws `Error the DOM elements were not
found` before any `Counter` is constructed; otherwise the counter is built
with `appCounterOptions` against the current storage and the logging change
listener is registered. -/
def appInit {α : Type} (logger : α)
    (counterElement incrementButton decrementButton resetButton : Bool)
    (stored : Option String) : Except String (Option (Counter α)) :=
  if !counterElement || !incrementButton || !decrementButton || !resetButton then
    Except.error "Required DOM elements not found"
  else
    Except.ok ((mkCounter appCounterOptions stored).map
      (fun c => (addChangeListener c logger).1))

/-- C1: `increment()` computes `candidate = count + step`; when
`candidate ≤ maxValue` it commits — the count becomes the candidate, the
candidate's decimal string is written to the display and to storage, and
every registered listener is invoked, in order, with the new value; when
`candidate > maxValue` it is a silent no-op — the state (count, listeners,
storage, display) is untouched and no listener runs — and any number of
repeated `increment()` calls stays a no-op. -/
theorem increment_spec {α : Type} (c : Counter α) (n : Nat) :
    (c.count + c.step ≤ c.maxValue →
      increment c =
        ({ c with count := c.count + c.step,
                  display := intToString (c.count + c.step),
                  storage := some (intToString (c.count + c.step)) },
         c.listeners.map (fun listener => (listener, c.count + c.step)))) ∧
    (c.maxValue < c.count + c.step →
      increment c = (c, []) ∧ incrementN n c = (c, [])) := by
  refine ⟨fun h => ?_, fun h => ?_⟩
  · unfold increment
    rw [if_pos h]
    rfl
  · have hno : increment c = (c, []) := by
      unfold increment
      rw [if_neg (by omega)]
    refine ⟨hno, ?_⟩
    induction n with
    | zero => rfl
    | succ m ih => simp [incrementN, hno, ih]

theorem increment_spec_witness :
    (increment ({ count := 0, minValue := -5, maxValue := 5, step := 2,
                  listeners := [7], display := "0", storage := none } : Counter Nat)
       = ({ count := 2, minValue := -5, maxValue := 5, step := 2,
            listeners := [7], display := "2", storage := some "2" }, [(7, 2)])) ∧
    (increment ({ count := 4, minValue := -5, maxValue := 5, step := 2,
                  listeners := [7], display := "4", storage := some "4" } : Counter Nat)
       = ({ count := 4, minValue := -5, maxValue := 5, step := 2,
            listeners := [7], display := "4", storage := some "4" }, [])) ∧
    (incrementN 3 ({ count := 4, minValue := -5, maxValue := 5, step := 2,
                     listeners := [7], display := "4", storage := some "4" } : Counter Nat)
       = ({ count := 4, minValue := -5, maxValue := 5, step := 2,
            listeners := [7], display := "4", storage := some "4" }, [])) := by
  refine ⟨((increment_spec _ 3).1 (by decide)).trans (by decide),
    ((increment_spec _ 3).2 (by decide)).1, ((increment_spec _ 3).2 (by decide)).2⟩

/-- C2: `decrement()` computes `candidate = count - step` and commits (count
set, display and storage updated, listeners notified with the new value)
exactly when `candidate ≥ minValue`; when `candidate < minValue` it is a
silent no-op with no state change and no listener invocation. -/
theorem decrement_spec {α : Type} (c : Counter α) :
    (c.count - c.step ≥ c.minValue →
      decrement c =
        ({ c with count := c.count - c.step,
                  display := intToString (c.count - c.step),
                  storage := some (intToString (c.count - c.step)) },
         c.listeners.map (fun listener => (listener, c.count - c.step)))) ∧
    (c.count - c.step < c.minValue → decrement c = (c, [])) := by
  refine ⟨fun h => ?_, fun h => ?_⟩
  · unfold decrement
    rw [if_pos h]
    rfl
  · unfold decrement
    rw [if_neg (by omega)]

theorem decrement_spec_witness :
    (decrement ({ count := 4, minValue := -5, maxValue := 5, step := 2,
                  listeners := [7], display := "4", storage := some "4" } : Counter Nat)
       = ({ count := 2, minValue := -5, maxValue := 5, step := 2,
            listeners := [7], display := "2", storage := some "2" }, [(7, 2)])) ∧
    (decrement ({ count := -4, minValue := -5, maxValue := 5, step := 2,
                  listeners := [7], display := "-4", storage := some "-4" } : Counter Nat)
       = ({ count := -4, minValue := -5, maxValue := 5, step := 2,
            listeners := [7], display := "-4", storage := some "-4" }, [])) := by
  exact ⟨((decrement_spec _).1 (by decide)).trans (by decide),
    (decrement_spec _).2 (by decide)⟩

/-- C3: `reset()` unconditionally sets the count to exactly `0` (not to
`initialValue`), with no bounds check, always writes `"0"` to storage, and
always invokes every registered listener, in order, with `0`. -/
theorem reset_spec {α : Type} (c : Counter α) :
    reset c =
      ({ c with count := 0, display := "0", storage := some "0" },
       c.listeners.map (fun listener => (listener, 0))) := by
  have h0 : intToString 0 = "0" := rfl
  unfold reset saveCountToStorage updateDisplay notifyListeners
  simp [h0]

/-- C10: frame conditions — `increment()`, `decrement()` and `reset()`
leave `minValue`, `maxValue`, `step` and the listener array unchanged;
`addChangeListener(f)` leaves the count, the bounds, the step and storage
unchanged, appends exactly `f` at the end of the listener array, and
performs no listener invocation at registration time. -/
theorem frame_spec {α : Type} (c : Counter α) (f : α) :
    ((increment c).1.minValue = c.minValue ∧ (increment c).1.maxValue = c.maxValue ∧
     (increment c).1.step = c.step ∧ (increment c).1.listeners = c.listeners) ∧
    ((decrement c).1.minValue = c.minValue ∧ (decrement c).1.maxValue = c.maxValue ∧
     (decrement c).1.step = c.step ∧ (decrement c).1.listeners = c.listeners) ∧
    ((reset c).1.minValue = c.minValue ∧ (reset c).1.maxValue = c.maxValue ∧
     (reset c).1.step = c.step ∧ (reset c).1.listeners = c.listeners) ∧
    ((addChangeListener c f).1.count = c.count ∧
     (addChangeListener c f).1.minValue = c.minValue ∧
     (addChangeListener c f).1.maxValue = c.maxValue ∧
     (addChangeListener c f).1.step = c.step ∧
     (addChangeListener c f).1.storage = c.storage ∧
     (addChangeListener c f).1.listeners = c.listeners ++ [f] ∧
     (addChangeListener c f).2 = []) := by
  refine ⟨?_, ?_, ?_, ?_⟩
  · by_cases h : c.count + c.step ≤ c.maxValue <;>
      simp [increment, h, saveCountToStorage, updateDisplay]
  · by_cases h : c.count - c.step ≥ c.minValue <;>
      simp [decrement, h, saveCountToStorage, updateDisplay]
  · simp [reset, saveCountToStorage, updateDisplay]
  · simp [addChangeListener]

/-- C4 counterexample: the invariant `minValue ≤ value ≤ maxValue` does NOT
hold after every mutation on every reachable state.  Constructing a counter
with bounds `[1, 10]` and initial value `5` (a state satisfying the
invariant) and calling `reset()` leaves the count at `0 < minValue`: the
first component records that the constructed state satisfies the invariant,
the second that the reset state violates it. -/
theorem invariant_counterexample :
    ((mkCounter (α := Nat)
        { initialValue := some 5, minValue := some 1, maxValue := some 10,
          step := some 1 } none).map
      (fun c0 =>
        (decide (c0.minValue ≤ c0.count ∧ c0.count ≤ c0.maxValue),
         decide ((reset c0).1.minValue ≤ (reset c0).1.count ∧
           (reset c0).1.count ≤ (reset c0).1.maxValue))))
      = some (true, false) := by
  decide

/-- C4 (amended): provided `0` lies within `[minValue, maxValue]` and
`step ≥ 0`, every mutation (`increment()`, `decrement()`, `reset()`)
preserves the invariant `minValue ≤ value ≤ maxValue`.  (As stated the claim
fails: `reset()` forces the value to `0` with no bounds check, so a
configuration whose range excludes `0` reaches a state violating the
invariant; restored and initial values are not validated either.) -/
theorem invariant_preserved {α : Type} (c : Counter α)
    (hmin : c.minValue ≤ 0) (hmax : 0 ≤ c.maxValue) (hstep : 0 ≤ c.step)
    (hlo : c.minValue ≤ c.count) (hhi : c.count ≤ c.maxValue) :
    ((increment c).1.minValue ≤ (increment c).1.count ∧
      (increment c).1.count ≤ (increment c).1.maxValue) ∧
    ((decrement c).1.minValue ≤ (decrement c).1.count ∧
      (decrement c).1.count ≤ (decrement c).1.maxValue) ∧
    ((reset c).1.minValue ≤ (reset c).1.count ∧
      (reset c).1.count ≤ (reset c).1.maxValue) := by
  refine ⟨?_, ?_, ?_⟩
  · by_cases h : c.count + c.step ≤ c.maxValue <;>
      simp [increment, h, saveCountToStorage, updateDisplay] <;> omega
  · by_cases h : c.count - c.step ≥ c.minValue <;>
      simp [decrement, h, saveCountToStorage, updateDisplay] <;> omega
  · simp [reset, saveCountToStorage, updateDisplay]
    omega

theorem invariant_preserved_witness :
    let c : Counter Nat :=
      { count := 4, minValue := -5, maxValue := 5, step := 2,
        listeners := [], display := "4", storage := some "4" }
    ((increment c).1.minValue ≤ (increment c).1.count ∧
      (increment c).1.count ≤ (increment c).1.maxValue) ∧
    ((decrement c).1.minValue ≤ (decrement c).1.count ∧
      (decrement c).1.count ≤ (decrement c).1.maxValue) ∧
    ((reset c).1.minValue ≤ (reset c).1.count ∧
      (reset c).1.count ≤ (reset c).1.maxValue) :=
  invariant_preserved _ (by decide) (by decide) (by decide) (by decide) (by decide)

/-- C5: on construction, a stored string that `parseInt(·, 10)` parses to
`v` makes `v` the starting value — whatever bounds the options carry, so an
out-of-range restored value is accepted as-is; with no stored string the
configured `initialValue` (default `0`) is used verbatim, again with no
bounds validation (the options, bounds included, are universally
quantified). -/
theorem construct_spec {α : Type} (options : CounterOptions) (s : String)
    (v : Int) (h : jsParseInt s = some v) :
    ((mkCounter options (some s) : Option (Counter α)).map Counter.count
      = some v) ∧
    ((mkCounter options none : Option (Counter α)).map Counter.count
      = some (options.initialValue.getD 0)) := by
  constructor <;> simp [mkCounter, h, updateDisplay]

theorem construct_spec_witness :
    jsParseInt "999" = some 999 ∧
    ((mkCounter (α := Nat)
        { initialValue := some 0, minValue := some 0, maxValue := some 10,
          step := some 1 } (some "999")).map Counter.count = some 999) ∧
    ((mkCounter (α := Nat)
        { initialValue := some 7, minValue := some 0, maxValue := some 10,
          step := some 1 } none).map Counter.count = some 7) := by
  refine ⟨by decide, (construct_spec _ "999" 999 (by decide)).1, ?_⟩
  exact ((construct_spec
    { initialValue := some 7, minValue := some 0, maxValue := some 10,
      step := some 1 } "999" 999 (by decide)).2).trans (by decide)

/-- C6: persistence round-trip — every committed mutation leaves in storage
the decimal string of the new count, and a counter constructed against that
storage, under arbitrary options (in particular any `initialValue`), starts
exactly at the committed value, because construction re-parses the string
base 10. -/
theorem persistence_roundtrip {α : Type} (c : Counter α)
    (options : CounterOptions) :
    (c.count + c.step ≤ c.maxValue →
      (mkCounter options ((increment c).1.storage) : Option (Counter α)).map
          Counter.count
        = some ((increment c).1.count)) ∧
    (c.count - c.step ≥ c.minValue →
      (mkCounter options ((decrement c).1.storage) : Option (Counter α)).map
          Counter.count
        = some ((decrement c).1.count)) ∧
    ((mkCounter options ((reset c).1.storage) : Option (Counter α)).map
        Counter.count
      = some ((reset c).1.count)) := by
  refine ⟨fun h => ?_, fun h => ?_, ?_⟩
  · simp [increment, h, saveCountToStorage, updateDisplay, mkCounter,
      jsParseInt_intToString]
  · simp [decrement, h, saveCountToStorage, updateDisplay, mkCounter,
      jsParseInt_intToString]
  · simp [reset, saveCountToStorage, updateDisplay, mkCounter,
      jsParseInt_intToString]

theorem persistence_roundtrip_witness :
    ((mkCounter (α := Nat)
        { initialValue := some 42, minValue := some (-10), maxValue := some 10,
          step := some 1 }
        ((increment ({ count := 0, minValue := -10, maxValue := 10, step := 1,
                       listeners := [], display := "0", storage := none } : Counter Nat)).1.storage)).map
      Counter.count = some 1) ∧
    ((mkCounter (α := Nat)
        { initialValue := some 42, minValue := some (-10), maxValue := some 10,
          step := some 1 }
        ((decrement ({ count := 0, minValue := -10, maxValue := 10, step := 1,
                       listeners := [], display := "0", storage := none } : Counter Nat)).1.storage)).map
      Counter.count = some (-1)) ∧
    ((mkCounter (α := Nat)
        { initialValue := some 42, minValue := some (-10), maxValue := some 10,
          step := some 1 }
        ((reset ({ count := 0, minValue := -10, maxValue := 10, step := 1,
                       listeners := [], display := "0", storage := none } : Counter Nat)).1.storage)).map
      Counter.count = some 0) := by
  refine ⟨((persistence_roundtrip _ _).1 (by decide)).trans (by decide),
    ((persistence_roundtrip _ _).2.1 (by decide)).trans (by decide),
    ((persistence_roundtrip
      ({ count := 0, minValue := -10, maxValue := 10, step := 1,
         listeners := [], display := "0", storage := none } : Counter Nat)
      { initialValue := some 42, minValue := some (-10), maxValue := some 10,
        step := some 1 }).2.2).trans (by decide)⟩

/-- C7: on every committed mutation, the `i`-th listener invocation is the
`i`-th registered callback, and it receives the post-mutation value — so
invocation order equals registration order (registration appends at the end
of the array, see the frame theorem) and all listeners see the same value. -/
theorem listener_order_spec {α : Type} (c : Counter α) (i : Nat) :
    (c.count + c.step ≤ c.maxValue →
      (increment c).2.get? i
        = (c.listeners.get? i).map (fun listener => (listener, c.count + c.step))) ∧
    (c.count - c.step ≥ c.minValue →
      (decrement c).2.get? i
        = (c.listeners.get? i).map (fun listener => (listener, c.count - c.step))) ∧
    ((reset c).2.get? i
      = (c.listeners.get? i).map (fun listener => (listener, 0))) := by
  refine ⟨fun h => ?_, fun h => ?_, ?_⟩
  · simp [increment, h, notifyListeners, saveCountToStorage, updateDisplay,
      List.getElem?_map]
  · simp [decrement, h, notifyListeners, saveCountToStorage, updateDisplay,
      List.getElem?_map]
  · simp [reset, notifyListeners, saveCountToStorage, updateDisplay,
      List.getElem?_map]

theorem listener_order_spec_witness :
    ((increment ({ count := 0, minValue := -10, maxValue := 10, step := 1,
                    listeners := [7, 8], display := "0", storage := none } : Counter Nat)).2.get? 0
      = some (7, 1)) ∧
    ((increment ({ count := 0, minValue := -10, maxValue := 10, step := 1,
                    listeners := [7, 8], display := "0", storage := none } : Counter Nat)).2.get? 1
      = some (8, 1)) ∧
    ((decrement ({ count := 0, minValue := -10, maxValue := 10, step := 1,
                    listeners := [7, 8], display := "0", storage := none } : Counter Nat)).2.get? 0
      = some (7, -1)) ∧
    ((reset ({ count := 0, minValue := -10, maxValue := 10, step := 1,
                    listeners := [7, 8], display := "0", storage := none } : Counter Nat)).2.get? 1
      = some (8, 0)) := by
  refine ⟨((listener_order_spec _ 0).1 (by decide)).trans (by decide),
    ((listener_order_spec _ 1).1 (by decide)).trans (by decide),
    ((listener_order_spec _ 0).2.1 (by decide)).trans (by decide),
    ((listener_order_spec
      ({ count := 0, minValue := -10, maxValue := 10, step := 1,
         listeners := [7, 8], display := "0", storage := none } : Counter Nat)
      1).2.2).trans (by decide)⟩

/-- C8: concrete scenario — options `{initialValue: 0, minValue: -5,
maxValue: 5, step: 2}`, empty storage, one listener (handle `7`); three
`increment()` calls notify the listener with exactly `2` then `4` (the third
call is a no-op: its candidate `6` exceeds `maxValue = 5`, so the state
after two and after three increments coincide) and the final value is `4`. -/
theorem scenario_spec :
    ((mkCounter (α := Nat)
        { initialValue := some 0, minValue := some (-5), maxValue := some 5,
          step := some 2 } none).map
      (fun c0 => incrementN 3 (addChangeListener c0 7).1))
      = some ({ count := 4, minValue := -5, maxValue := 5, step := 2,
                listeners := [7], display := "4", storage := some "4" },
              [(7, 2), (7, 4)]) ∧
    ((mkCounter (α := Nat)
        { initialValue := some 0, minValue := some (-5), maxValue := some 5,
          step := some 2 } none).map
      (fun c0 => (incrementN 2 (addChangeListener c0 7).1).1))
      = some { count := 4, minValue := -5, maxValue := 5, step := 2,
               listeners := [7], display := "4", storage := some "4" } := by
  decide

/-- C9: if any of the four required DOM handles (display element, increment,
decrement or reset button) is missing, `src/app.ts` initialization fails
immediately with the fatal error, before any `Counter` is constructed — the
result carries no counter state and no handler was attached. -/
theorem appInit_missing_element {α : Type} (logger : α) (a b c d : Bool)
    (stored : Option String)
    (h : a = false ∨ b = false ∨ c = false ∨ d = false) :
    appInit logger a b c d stored
      = Except.error "Required DOM elements not found" := by
  rcases h with rfl | rfl | rfl | rfl <;> simp [appInit]

theorem appInit_missing_element_witness :
    appInit (0 : Nat) false true true true none
      = Except.error "Required DOM elements not found" :=
  appInit_missing_element 0 false true true true none (Or.inl rfl)

end NumberCounter
